import Mathlib

/-!
Verification of the ProxyPOP3 proxy engine (POP3filter/src/pop3.c) and its
management channel. C byte strings are modelled as `List Nat` (byte values);
each definition mirrors the named C function, with the file and line of the
source next to it. Where a collaborating translation unit is not part of the
sources (buffer.c, response parser, pop3_session.c), the definition carries a
comment explaining which observable contract of that unit it encodes.
-/

namespace ProxyPOP3

/-- Byte values of the characters of a string literal; the C code works on
`char` bytes, which are ASCII throughout this code base. -/
def ascii (s : String) : List Nat := s.toList.map Char.toNat

/-- C `toupper` on one ASCII byte, as applied by `to_upper` (pop3.c:761). -/
def upByte (c : Nat) : Nat := if 97 ≤ c ∧ c ≤ 122 then c - 32 else c

/-- `to_upper` (pop3.c:761): uppercases every byte of a string in place. -/
def to_upper (s : List Nat) : List Nat := s.map upByte

/-- C `strstr(hay, needle) != NULL`: the needle occurs as a contiguous
substring of the haystack. -/
def strstr_found (hay needle : List Nat) : Bool :=
  hay.tails.any (fun t => needle.isPrefixOf t)

/-- Case-insensitive containment of `needle` in `s`: some contiguous segment
of `s` equals `needle` up to ASCII case. This is the specification notion the
code implements with `strstr(to_upper(...), "PIPELINING")`. -/
def contains_ci (s needle : List Nat) : Prop :=
  ∃ l w r, s = l ++ w ++ r ∧ to_upper w = to_upper needle

/-- The capability needle searched by pop3.c (lines 774 and 1002). -/
def PIPELINING : List Nat := ascii ("PIPELINING")

/-- The multi-line terminator appended by `response_process_capa`
(pop3.c:1012). -/
def EOM : List Nat := ascii ("\r\n.\r\n")

/-- The fields of `struct pop3_session` that pop3.c manipulates.
`pop3_session.h` is not among the sources; the fields and their meaning follow
their uses in pop3.c and section 3 of the specification. -/
structure pop3_session where
  pipelining : Bool
  concurrent_invalid_commands : Nat
deriving DecidableEq

/-- `pop3_session_init(s, pipelining)`: pop3.c always calls it with `false`
(pop3.c:278 and pop3.c:607); the flag argument initialises
`session.pipelining` and the invalid-command counter starts at zero
(specification sections 3 and 4.6). -/
def pop3_session_init (pipelining : Bool) : pop3_session :=
  { pipelining := pipelining, concurrent_invalid_commands := 0 }

/-- `set_pipelining` (pop3.c:771): uppercases `capa_response` in place, sets
`session.pipelining` to whether `strstr` finds `"PIPELINING"` in it, and
drains `d->wb` completely (the `while (buffer_can_read ...) buffer_read`
loop). Returns the new flag and the drained buffer. -/
def set_pipelining (capa_response wb : List Nat) : Bool × List Nat :=
  let capabilities := to_upper capa_response
  (strstr_found capabilities PIPELINING, ([] : List Nat))

/-- Contract of the response parser for a client-issued CAPA, modelled here
because the response parsing unit is not among the sources: per specification
section 4.5 the parser accumulates the raw capability list in
`capa_response`, and per section 6 the proxy observably relays the response,
so when the CAPA response completes, the client-bound buffer `d->wb` holds
the same raw bytes that `capa_response` accumulated. Returns
`(capa_response, wb)`. -/
def capa_egress (raw : List Nat) : List Nat × List Nat := (raw, raw)

/-- Allocation performed by `response_process_capa` (pop3.c:1015):
`calloc(capa_length - 3 + needle_length + eom_length + 1, sizeof(char))`. -/
def capa_alloc_size (capa_length : Nat) : Nat :=
  capa_length - 3 + PIPELINING.length + EOM.length + 1

/-- `response_process_capa` (pop3.c:996): uppercases `capa_response` in
place; if `strstr` finds `"PIPELINING"` it returns at once, leaving the
client-bound buffer `wb` untouched; otherwise it builds
`new_capa = capabilities[0 .. len-3] ++ "PIPELINING" ++ "\r\n.\r\n"`,
replaces `capa_response` by it, drains `wb` and writes `new_capa` into it.
Returns the pair `(capa_response, wb)` after the call. -/
def response_process_capa (capa_response wb : List Nat) : List Nat × List Nat :=
  let capabilities := to_upper capa_response
  if strstr_found capabilities PIPELINING then
    (capabilities, wb)
  else
    let new_capa :=
      capabilities.take (capabilities.length - 3) ++ PIPELINING ++ EOM
    (new_capa, new_capa)

/-- The banner written by `hello_read` (pop3.c:641). -/
def proxy_banner : List Nat := ascii ("+OK Proxy server POP3 ready.\r\n")

/-- `hello_read` (pop3.c:630): copies the banner at the write pointer of
`write_buffer` and advances the write cursor by its length; then `recv`s the
origin greeting at the write pointer and advances the write cursor by `0`
(pop3.c:652), so none of the received greeting bytes become readable.
Arguments are the readable bytes of `write_buffer` before the call and the
greeting bytes `recv` produced; result is the readable bytes after. -/
def hello_read (wb greeting : List Nat) : List Nat :=
  (wb ++ proxy_banner) ++ greeting.take 0

/-- `hello_write` (pop3.c:668): sends the readable bytes of `write_buffer`
to the client. -/
def hello_write (wb : List Nat) : List Nat := wb

/-- The origin greeting used in specification scenario 1. -/
def greeting_hi : List Nat := ascii ("+OK hi\r\n")

/-- A lowercase origin capability list ending in the multi-line
terminator. -/
def capa_lower : List Nat := ascii ("pipelining\r\n.\r\n")

/-- An origin capability list that lacks PIPELINING. -/
def capa_plain : List Nat := ascii ("+OK\r\nTOP\r\n.\r\n")

/-- The session state machine of pop3.c (enum pop3_state, pop3.c:32). -/
inductive pop3_state
  | ORIGIN_RESOLV
  | CONNECTING
  | HELLO
  | CAPA
  | REQUEST
  | RESPONSE
  | EXTERNAL_TRANSFORMATION
  | DONE
  | ERROR
deriving DecidableEq

/-- Outcome of the request parser for one client command, as inspected by
`request_process` (pop3.c:843): `done_ok` is any state below `request_error`
once `request_is_done` holds; the three error states mirror
`request_error`, `request_error_cmd_too_long`, `request_error_param_too_long`
(specification section 4.4; the request parsing unit is not among the sources, but
only the final state tag is consumed here). -/
inductive request_result
  | done_ok
  | req_error
  | req_error_cmd_too_long
  | req_error_param_too_long
deriving DecidableEq

/-- A parsed POP3 command as queued by pop3.c (`struct pop3_request`,
specification section 3): a verb and an optional argument string. -/
structure pop3_request where
  cmd : List Nat
  args : Option (List Nat)
deriving DecidableEq

/-- `MAX_CONCURRENT_INVALID_COMMANDS` (pop3.c:836). -/
def MAX_CONCURRENT_INVALID_COMMANDS : Nat := 3

/-- Error reply of pop3.c:849. -/
def err_unknown : List Nat := ascii ("-ERR Unknown command. (POPG)\r\n")

/-- Error reply of pop3.c:852. -/
def err_cmd_too_long : List Nat := ascii ("-ERR Command too long.\r\n")

/-- Error reply of pop3.c:855. -/
def err_param_too_long : List Nat := ascii ("-ERR Parameter too long.\r\n")

/-- Termination reply of pop3.c:866 (it ends in a bare newline in the
source). -/
def err_too_many : List Nat := ascii ("-ERR Too many invalid commands. (POPG)\n")

/-- The `-ERR` reply chosen by the switch at pop3.c:847 for each parser
error state. -/
def request_error_msg : request_result → List Nat
  | .done_ok => []
  | .req_error => err_unknown
  | .req_error_cmd_too_long => err_cmd_too_long
  | .req_error_param_too_long => err_param_too_long

/-- Result of `request_process`: the messages sent to the client socket, the
returned machine state, the invalid-command counter and the request queue
after the call. -/
structure request_outcome where
  client_out : List (List Nat)
  next : pop3_state
  cic : Nat
  queue : List pop3_request
deriving DecidableEq

/-- `request_process` (pop3.c:839): on a parser error it sends one `-ERR`
line, increments `session.concurrent_invalid_commands`, and if the counter
reached `MAX_CONCURRENT_INVALID_COMMANDS` it additionally sends the
`Too many invalid commands` line and returns `DONE`, otherwise it resets the
request parser and stays in `REQUEST`; on a valid command it zeroes the
counter, enqueues the request and stays in `REQUEST` (the success path that
runs out of memory in `new_request` and returns `ERROR` is not modelled).
Arguments: parser outcome, counter and queue before the call, and the parsed
request. -/
def request_process (ps : request_result) (cic : Nat) (q : List pop3_request)
    (req : pop3_request) : request_outcome :=
  if ps ≠ request_result.done_ok then
    let msg := request_error_msg ps
    let cic2 := cic + 1
    if MAX_CONCURRENT_INVALID_COMMANDS ≤ cic2 then
      { client_out := [msg, err_too_many], next := .DONE, cic := cic2, queue := q }
    else
      { client_out := [msg], next := .REQUEST, cic := cic2, queue := q }
  else
    { client_out := [], next := .REQUEST, cic := 0, queue := q ++ [req] }

/-- One pop3 session as seen by the metrics bookkeeping: whether
`connecting` has stored an origin descriptor (`origin_fd != -1`,
pop3.c:585) and whether `pop3_done` has already torn it down. -/
structure session_rec where
  hasOrigin : Bool
  terminated : Bool
deriving DecidableEq

/-- The process-wide metrics state touched by pop3.c together with the
sessions it tracks. `accept_calls` counts entries into
`pop3_passive_accept`. -/
structure metrics_state where
  concurrent_connections : Int
  historical_access : Nat
  accept_calls : Nat
  sessions : List session_rec
deriving DecidableEq

/-- Events that touch the connection metrics. `accept ok` is one call of
`pop3_passive_accept` (pop3.c:345), where `ok` records whether the accepted
socket was successfully registered as a session; `connect i` is session `i`
passing `connecting` (pop3.c:580), which stores its origin descriptor;
`done i` is `pop3_done` for session `i` (pop3.c:1637). `connect` and `done`
fire only for live sessions, so they are no-ops on indices already torn down
or out of range. -/
inductive metrics_event
  | accept (ok : Bool)
  | connect (i : Nat)
  | done (i : Nat)
deriving DecidableEq

/-- One metrics transition. `pop3_passive_accept` increments both counters
before examining the accept result (pop3.c:355), so even a failed accept
counts; `pop3_done` decrements `concurrent_connections` only when
`origin_fd != -1` (pop3.c:1643). -/
def metrics_step (st : metrics_state) (e : metrics_event) : metrics_state :=
  match e with
  | .accept ok =>
      { st with
        concurrent_connections := st.concurrent_connections + 1
        historical_access := st.historical_access + 1
        accept_calls := st.accept_calls + 1
        sessions :=
          if ok then st.sessions ++ [{ hasOrigin := false, terminated := false }]
          else st.sessions }
  | .connect i =>
      match st.sessions[i]? with
      | some s =>
          if s.terminated then st
          else { st with sessions := st.sessions.set i { s with hasOrigin := true } }
      | none => st
  | .done i =>
      match st.sessions[i]? with
      | some s =>
          if s.terminated then st
          else
            { st with
              sessions := st.sessions.set i { s with terminated := true }
              concurrent_connections :=
                if s.hasOrigin then st.concurrent_connections - 1
                else st.concurrent_connections }
      | none => st

/-- The metrics state at process start: all counters zero, no session. -/
def metrics_init : metrics_state :=
  { concurrent_connections := 0, historical_access := 0, accept_calls := 0
    sessions := [] }

/-- Runs a sequence of metrics events from process start. -/
def metrics_run (evs : List metrics_event) : metrics_state :=
  evs.foldl metrics_step metrics_init

/-- Number of sessions in a non-terminal state with an established origin
connection: the quantity the claimed invariant compares against. -/
def liveWithOrigin (st : metrics_state) : Nat :=
  st.sessions.countP (fun s => ! s.terminated && s.hasOrigin)

/-- Number of sessions already torn down by `pop3_done` that had an origin
descriptor, i.e. the sessions whose teardown decremented the counter. -/
def doneWithOrigin (st : metrics_state) : Nat :=
  st.sessions.countP (fun s => s.terminated && s.hasOrigin)

/-- The flags of `struct external_transformation` (pop3.c:139) that drive
control flow after a failed spawn, the machine state the handlers returned
last, and `queue_is_empty` on the session request queue (constant during one
transformation because client reads are disarmed in that state). -/
structure et_state where
  finish_rd : Bool
  finish_wr : Bool
  error_rd : Bool
  error_wr : Bool
  did_write : Bool
  write_error : Bool
  send_bytes_write : Nat
  send_bytes_read : Nat
  queue_nonempty : Bool
  pstate : pop3_state
deriving DecidableEq

/-- `finished_et` (pop3.c:1244). -/
def finished_et (et : et_state) : Bool :=
  (et.finish_rd && et.finish_wr) || (et.finish_rd && et.error_wr)

/-- The state left by `external_transformation_init` (pop3.c:1255) when
`open_external_transformation` returned `et_status_err`: every flag reset
(pop3.c:1268), the `-ERR could not open external transformation.` line
placed in the client-bound buffer and client write armed (pop3.c:1299), and
`finish_rd` already true when `parse_mail` found the whole mail in the
origin buffer (pop3.c:1312). On every failure path of
`open_external_transformation` (pop3.c:1664) the child pipe descriptors are
closed or never created, so no child-side handler can fire afterwards. -/
def et_init_after_failed_spawn (mail_buffered queue_nonempty : Bool) : et_state :=
  { finish_rd := mail_buffered, finish_wr := false
    error_rd := false, error_wr := false
    did_write := false, write_error := false
    send_bytes_write := 0, send_bytes_read := 0
    queue_nonempty := queue_nonempty
    pstate := .EXTERNAL_TRANSFORMATION }

/-- The state both ET handlers return when the transformation finished
(pop3.c:1344 and pop3.c:1422): `RESPONSE` when requests remain queued, else
`REQUEST`. -/
def et_exit_state (et : et_state) : pop3_state :=
  if et.queue_nonempty then .RESPONSE else .REQUEST

/-- `external_transformation_read` (pop3.c:1319): `recv` from the origin
returned `n`; `mail_done` is what `parse_mail` answered and `k` the byte
count it stored in `send_bytes_read`. On `n > 0` with the mail complete it
sets `finish_rd` and leaves the state only if `finished_et`; on `n == -1` it
returns `ERROR`; otherwise it only rearms interests. Terminal states absorb
(after `DONE`/`ERROR` the reactor runs `pop3_done`, not this handler). -/
def external_transformation_read (st : et_state) (n : Int) (mail_done : Bool)
    (k : Nat) : et_state :=
  if st.pstate ≠ pop3_state.EXTERNAL_TRANSFORMATION then st
  else if 0 < n then
    if mail_done then
      let st1 := { st with finish_rd := true, send_bytes_read := k }
      if finished_et st1 then { st1 with pstate := et_exit_state st1 } else st1
    else { st with send_bytes_read := 0 }
  else if n = -1 then { st with pstate := pop3_state.ERROR }
  else st

/-- `external_transformation_write` (pop3.c:1377): the two `error_wr` blocks
set `write_error` and refill the buffer (byte contents are not tracked
here); then `send` to the client returned `n`. On `n > 0` it sets
`finish_wr` only when `send_bytes_write` was nonzero (pop3.c:1410), marks
`did_write`, and leaves the state only when `(error_wr || finish_wr)` holds
with `send_bytes_write == 0` and `finished_et`; on `n == -1` it returns
`ERROR`. Terminal states absorb. -/
def external_transformation_write (st : et_state) (n : Int) : et_state :=
  if st.pstate ≠ pop3_state.EXTERNAL_TRANSFORMATION then st
  else
    let st1 :=
      if st.error_wr && ! st.did_write then { st with write_error := true } else st
    let st2 :=
      if st1.error_wr && st1.did_write && ! st1.write_error then
        { st1 with write_error := true }
      else st1
    if 0 < n then
      let st3 :=
        if st2.send_bytes_write ≠ 0 then
          { st2 with
            send_bytes_write := st2.send_bytes_write - n.toNat
            finish_wr := true, did_write := true }
        else { st2 with did_write := true }
      if (st3.error_wr || st3.finish_wr) && st3.send_bytes_write = 0 then
        if finished_et st3 then { st3 with pstate := et_exit_state st3 } else st3
      else st3
    else if n = -1 then { st2 with pstate := pop3_state.ERROR }
    else st2

/-- The handler invocations possible after a failed spawn: only the origin
socket (read) and the client socket (write) are registered, because the
child pipes were closed or never created, so `ext_read` and `ext_write`
cannot fire. The parameters carry the I/O results of the invocation. -/
inductive et_event
  | origin_read (n : Int) (mail_done : Bool) (k : Nat)
  | client_write (n : Int)
deriving DecidableEq

/-- One ET handler dispatch. -/
def et_step (st : et_state) (e : et_event) : et_state :=
  match e with
  | .origin_read n mail_done k => external_transformation_read st n mail_done k
  | .client_write n => external_transformation_write st n

/-- Runs a sequence of ET handler invocations. -/
def et_run (st : et_state) (evs : List et_event) : et_state :=
  evs.foldl et_step st

/-- The management FSM states (specification section 4.9; the management
translation unit names them ST_HELO, ST_USER, ST_PASS, ST_CONFIG). -/
inductive parse_status
  | ST_HELO
  | ST_USER
  | ST_PASS
  | ST_CONFIG
deriving DecidableEq

/-- The `args` field of the `parse_action` records of the management unit
(hello 0, user 2, pass 2, config 0). -/
def action_args : parse_status → Nat
  | .ST_HELO => 0
  | .ST_USER => 2
  | .ST_PASS => 2
  | .ST_CONFIG => 0

/-- The parse error codes the management unit consumes in
`parse_commands` (`data->error` plus the locally raised wrong-args code). -/
inductive mgmt_err
  | PARSE_OK
  | ERROR_WRONGARGS
  | ERROR_MALLOC
deriving DecidableEq

/-- Management replies: `send_ok`/`send_error` of the management unit tag a
text with a `+OK`/`-ERR` prefix (specification section 4.9; utils.c is not
among the sources, only the tag and the text matter here). -/
inductive mreply
  | ok (msg : List Nat)
  | err (msg : List Nat)
deriving DecidableEq

/-- C `strcasecmp(a, b) == 0`: byte strings equal up to ASCII case. -/
def strcasecmp_eq (a b : List Nat) : Bool := to_upper a == to_upper b

/-- The QUIT token tested at the top of `parse_commands`. -/
def QUIT_BYTES : List Nat := ascii ("QUIT")

/-- Observable outcome of one `parse_commands` call: the connection was
closed after `+OK Goodbye.` (with the C return value), or the per-state
action was dispatched, or an error reply was sent. -/
inductive mgmt_outcome
  | goodbye_closed (reply : mreply) (ret : Int)
  | dispatched (st : parse_status)
  | error_reply (reply : mreply)
deriving DecidableEq

/-- `parse_commands` of the management unit: computes `st_err` (wrong-args
beats the incoming error), but first honors a single-token case-insensitive
QUIT in whatever state the FSM is in, replying `+OK Goodbye.`, closing the
descriptor and returning -1 (`goodbye`); only then does it dispatch the
per-state action or report the error. -/
def parse_commands (status : parse_status) (argc : Nat) (cmd0 : List Nat)
    (err : mgmt_err) : mgmt_outcome :=
  let st_err :=
    if action_args status ≠ 0 ∧ action_args status ≠ argc then
      mgmt_err.ERROR_WRONGARGS
    else err
  if argc = 1 ∧ strcasecmp_eq QUIT_BYTES cmd0 then
    .goodbye_closed (.ok (ascii ("Goodbye."))) (-1)
  else
    match st_err with
    | .PARSE_OK => .dispatched status
    | .ERROR_WRONGARGS =>
        .error_reply (.err (ascii ("wrong command or wrong number of arguments.")))
    | .ERROR_MALLOC =>
        .error_reply (.err (ascii ("server error. Try again later.")))

/-- The configuration fields the management CONFIG commands mutate
(parameters.h:8). -/
structure management_options where
  et_activated : Bool
  filter_command : Option (List Nat)
  replacement_msg : List Nat
deriving DecidableEq

/-- The `CMD` branch of `parse_config` with `argc == 1`: negates
`parameters->et_activated` and replies with the resulting state. Returns
the new configuration and the reply. -/
def parse_config_cmd_toggle (p : management_options) :
    management_options × mreply :=
  let p2 := { p with et_activated := ! p.et_activated }
  (p2,
    if p2.et_activated then
      .ok (ascii ("External transformations activated."))
    else
      .ok (ascii ("External transformations deactivated.")))

/-- Which pointer ends up stored in `parameters->replacement_msg`. -/
inductive stored_ptr
  | argv_cell
  | owned_copy
deriving DecidableEq

/-- The memory effects of the `MSG` branch of `parse_config`. -/
structure msg_effect where
  alloc_size : Nat
  strcpy_bytes : Nat
  stored : stored_ptr
  old_freed : Bool
  copy_freed_or_stored : Bool
  reply : mreply
deriving DecidableEq

/-- The `MSG <text>` branch of `parse_config` (two-token case): it mallocs
`sizeof(char) * strlen(cmd[1])` bytes, `strcpy`s `strlen(cmd[1]) + 1` bytes
(the text plus the NUL) into that allocation, then assigns the argv cell
`cmd[1]` itself, not the copy, to `parameters->replacement_msg`; the
previous `replacement_msg` is not freed and the copy is neither stored nor
freed; it replies `+OK Done.`. -/
def parse_config_msg (arg : List Nat) : msg_effect :=
  { alloc_size := arg.length
    strcpy_bytes := arg.length + 1
    stored := .argv_cell
    old_freed := false
    copy_freed_or_stored := false
    reply := .ok (ascii ("Done.")) }

/-- `max_pool` (pop3.c:239). -/
def max_pool : Nat := 50

/-- The session free-list of pop3.c: the list itself (only its length
matters, entries are reusable allocations) and the `pool_size` counter
(pop3.c:240). -/
structure pool_state where
  pool : List Unit
  pool_size : Nat
deriving DecidableEq

/-- The pool effect of `pop3_new` (pop3.c:247): when the free-list is
nonempty its head is taken for reuse, and `pool_size` is not decremented;
when it is empty a fresh allocation is made, touching neither field. -/
def pop3_new (st : pool_state) : pool_state :=
  match st.pool with
  | [] => st
  | _ :: rest => { st with pool := rest }

/-- `pop3_destroy` (pop3.c:299): with `references == 1` the session is
pushed onto the free-list only when `pool_size < max_pool`, incrementing
`pool_size`, and is freed otherwise; with more references only the refcount
drops and the pool is untouched. -/
def pop3_destroy (st : pool_state) (references : Nat) : pool_state :=
  if references = 1 then
    if st.pool_size < max_pool then
      { st with pool := () :: st.pool, pool_size := st.pool_size + 1 }
    else st
  else st

/-- Session creations and destructions, as they affect the pool. -/
inductive pool_event
  | new
  | destroy (references : Nat)
deriving DecidableEq

/-- One pool transition. -/
def pool_step (st : pool_state) (e : pool_event) : pool_state :=
  match e with
  | .new => pop3_new st
  | .destroy r => pop3_destroy st r

/-- Runs a sequence of creations and destructions from process start
(`pool = 0`, `pool_size = 0`, pop3.c:240). -/
def pool_run (evs : List pool_event) : pool_state :=
  evs.foldl pool_step { pool := [], pool_size := 0 }

/-- The accounting discipline `pop3_passive_accept`, `connecting` and
`pop3_done` actually maintain: the counter equals the number of
`pop3_passive_accept` calls minus the number of sessions torn down with an
origin descriptor. -/
def metrics_inv (st : metrics_state) : Prop :=
  st.concurrent_connections =
    (st.accept_calls : Int) - (doneWithOrigin st : Int)

/-- Invariant of the ET machine after a failed spawn: the handlers stay in
`EXTERNAL_TRANSFORMATION` (or fall to `ERROR` on an I/O failure), and the
write-direction flags that `finished_et` needs can never be raised because
only `ext_read` raises `error_wr` and only a nonzero `send_bytes_write`
(written by `ext_read` via `parse_mail`) lets `finish_wr` be set. -/
def et_stuck_inv (st : et_state) : Prop :=
  (st.pstate = pop3_state.EXTERNAL_TRANSFORMATION ∨
    st.pstate = pop3_state.ERROR) ∧
  st.finish_wr = false ∧ st.error_wr = false ∧ st.send_bytes_write = 0

/-- A concrete valid request used to instantiate `request_process`. -/
def req0 : pop3_request := { cmd := ascii ("NOOP"), args := none }

/-- A concrete argument for the management MSG command. -/
def msg_hello : List Nat := ascii ("hello")

/-- A lowercase QUIT token. -/
def quit_lower : List Nat := ascii ("quit")

/-- `strstr` finds the needle exactly when it is an infix of the
haystack. -/
theorem strstr_found_iff_occurs (hay needle : List Nat) :
    strstr_found hay needle = true ↔ needle <:+: hay := by
  unfold strstr_found
  rw [ List.any_eq_true]
  constructor
  · rintro ⟨t, ht, hp⟩
    rw [ List.mem_tails] at ht
    rw [ List.isPrefixOf_iff_prefix] at hp
    exact List.infix_iff_prefix_suffix.mpr ⟨t, hp, ht⟩
  · intro hinf
    obtain ⟨t, hp, ht⟩ := List.infix_iff_prefix_suffix.mp hinf
    exact ⟨t, (List.mem_tails t hay).mpr ht,
      List.isPrefixOf_iff_prefix.mpr hp⟩

/-- Searching an uppercased haystack for an uppercase-invariant needle is
exactly case-insensitive containment in the original haystack. -/
theorem strstr_upper_iff_ci (s needle : List Nat)
    (hn : to_upper needle = needle) :
    strstr_found (to_upper s) needle = true ↔ contains_ci s needle := by
  rw [strstr_found_iff_occurs]
  unfold contains_ci
  simp only [to_upper] at hn ⊢
  constructor
  · intro hinf
    obtain ⟨a, b, hab⟩ := hinf
    have h1 : List.map upByte s = a ++ (needle ++ b) := by
      rw [← hab, List.append_assoc]
    obtain ⟨l, rest, hs, hl, hrest⟩ := List.map_eq_append_iff.mp h1
    obtain ⟨w, r, hwr, hw, hr⟩ := List.map_eq_append_iff.mp hrest
    refine ⟨l, w, r, ?_, ?_⟩
    · rw [hs, hwr, List.append_assoc]
    · rw [hw, hn]
  · rintro ⟨l, w, r, hsplit, hw⟩
    refine ⟨List.map upByte l, List.map upByte r, ?_⟩
    rw [hsplit]
    simp only [List.map_append]
    rw [hw, hn]

/-- Claim C4: after the CAPA response is fully consumed, `set_pipelining`
makes `session.pipelining` true exactly when the accumulated capability
text contains the word PIPELINING under case-insensitive comparison, and
`pop3_session_init false` (the call every session gets before the CAPA list
is observed) starts the flag at false. -/
theorem set_pipelining_iff_contains_ci (capa_response wb : List Nat) :
    ((set_pipelining capa_response wb).1 = true ↔
      contains_ci capa_response PIPELINING) ∧
    (pop3_session_init false).pipelining = false := by
  constructor
  · exact strstr_upper_iff_ci capa_response PIPELINING (by decide)
  · rfl

/-- Witness for C4 at a concrete lowercase capability list. -/
theorem set_pipelining_iff_contains_ci_witness :
    ((set_pipelining capa_lower []).1 = true ↔
      contains_ci capa_lower PIPELINING) ∧
    (pop3_session_init false).pipelining = false :=
  set_pipelining_iff_contains_ci capa_lower []

/-- Counterexample to C1 as stated: when the origin advertises the
capability in lowercase, `response_process_capa` takes the no-rewrite
branch (the uppercased copy matches) and forwards the client-bound buffer
unchanged, so the bytes transmitted to the client do not contain the
literal substring PIPELINING. -/
theorem capa_lowercase_not_rewritten :
    (response_process_capa capa_lower (capa_egress capa_lower).2).2 =
      capa_lower ∧
    strstr_found
      (response_process_capa capa_lower (capa_egress capa_lower).2).2
      PIPELINING = false := by
  decide

/-- Claim C1 (amended): the capability bytes transmitted to the client
contain PIPELINING case-insensitively; when the uppercased list lacks the
literal needle, the body is rewritten to
`first (len-3) bytes ++ PIPELINING ++ "\r\n.\r\n"` (so the needle lands
before the terminating `.\r\n`), and the `calloc` at pop3.c:1015 is exactly
the size the rewritten list plus its NUL needs. -/
theorem response_process_capa_pipelining (capa : List Nat)
    (h3 : 3 ≤ capa.length) :
    contains_ci (response_process_capa capa capa).2 PIPELINING ∧
    (strstr_found (to_upper capa) PIPELINING = false →
      (response_process_capa capa capa).2 =
        (to_upper capa).take (capa.length - 3) ++ PIPELINING ++ EOM ∧
      capa_alloc_size capa.length =
        (response_process_capa capa capa).2.length + 1) := by
  by_cases h : strstr_found (to_upper capa) PIPELINING = true
  · have hc := (strstr_upper_iff_ci capa PIPELINING (by decide)).mp h
    constructor
    · simpa [response_process_capa, h] using hc
    · intro hf
      rw [h] at hf
      cases hf
  · have h' : strstr_found (to_upper capa) PIPELINING = false := by
      simpa using h
    have hlen : (to_upper capa).length = capa.length := by
      simp [to_upper]
    constructor
    · unfold contains_ci
      refine ⟨(to_upper capa).take ((to_upper capa).length - 3),
        PIPELINING, EOM, ?_, rfl⟩
      simp [response_process_capa, h']
    · intro _
      have hP : PIPELINING.length = 10 := by decide
      have hE : EOM.length = 5 := by decide
      constructor
      · simp [response_process_capa, h', hlen]
      · simp [response_process_capa, h', capa_alloc_size,
          List.length_append, List.length_take, hlen, hP, hE]

/-- Witness for C1 (amended) at a capability list lacking PIPELINING. -/
theorem response_process_capa_pipelining_witness :
    3 ≤ capa_plain.length ∧
    (contains_ci (response_process_capa capa_plain capa_plain).2
        PIPELINING ∧
      (strstr_found (to_upper capa_plain) PIPELINING = false →
        (response_process_capa capa_plain capa_plain).2 =
          (to_upper capa_plain).take (capa_plain.length - 3) ++
            PIPELINING ++ EOM ∧
        capa_alloc_size capa_plain.length =
          (response_process_capa capa_plain capa_plain).2.length + 1)) :=
  ⟨by decide, response_process_capa_pipelining capa_plain (by decide)⟩

/-- Claim C2 (the code contradicts it): `hello_read` advances the write
cursor by zero after receiving the origin greeting, so `hello_write`
transmits the banner alone; the greeting bytes never reach the client. -/
theorem hello_drops_origin_greeting :
    hello_write (hello_read [] greeting_hi) = proxy_banner ∧
    hello_write (hello_read [] greeting_hi) ≠ proxy_banner ++ greeting_hi := by
  decide

/-- Claim C3: in REQUEST, a malformed command yields exactly one `-ERR`
line and increments the consecutive-invalid counter; when the counter
reaches `MAX_CONCURRENT_INVALID_COMMANDS` the session additionally sends
the `Too many invalid commands` line and returns `DONE`; a valid command
resets the counter to zero (so only consecutive invalid commands can
terminate) and enqueues the request. -/
theorem request_process_invalid_policy (ps : request_result) (cic : Nat)
    (q : List pop3_request) (req : pop3_request) :
    (ps ≠ request_result.done_ok →
      (request_process ps cic q req).cic = cic + 1 ∧
      (request_error_msg ps).take 5 = ascii ("-ERR ") ∧
      (cic + 1 < MAX_CONCURRENT_INVALID_COMMANDS →
        (request_process ps cic q req).client_out = [request_error_msg ps] ∧
        (request_process ps cic q req).next = pop3_state.REQUEST) ∧
      (MAX_CONCURRENT_INVALID_COMMANDS ≤ cic + 1 →
        (request_process ps cic q req).client_out =
          [request_error_msg ps, err_too_many] ∧
        (request_process ps cic q req).next = pop3_state.DONE)) ∧
    (ps = request_result.done_ok →
      (request_process ps cic q req).cic = 0 ∧
      (request_process ps cic q req).client_out = [] ∧
      (request_process ps cic q req).next = pop3_state.REQUEST ∧
      (request_process ps cic q req).queue = q ++ [req]) := by
  constructor
  · intro hne
    refine ⟨?_, ?_, ?_, ?_⟩
    · by_cases hc : MAX_CONCURRENT_INVALID_COMMANDS ≤ cic + 1 <;>
        simp [request_process, hne, hc]
    · cases ps <;> first | exact absurd rfl hne | decide
    · intro hlt
      have hc : ¬ MAX_CONCURRENT_INVALID_COMMANDS ≤ cic + 1 := by omega
      simp [request_process, hne, hc]
    · intro hge
      simp [request_process, hne, hge]
  · intro he
    subst he
    simp [request_process]

/-- Witness for C3: first malformed command of a session. -/
theorem request_process_invalid_policy_witness :
    ((request_result.req_error ≠ request_result.done_ok →
      (request_process .req_error 0 [] req0).cic = 0 + 1 ∧
      (request_error_msg .req_error).take 5 = ascii ("-ERR ") ∧
      (0 + 1 < MAX_CONCURRENT_INVALID_COMMANDS →
        (request_process .req_error 0 [] req0).client_out =
          [request_error_msg .req_error] ∧
        (request_process .req_error 0 [] req0).next = pop3_state.REQUEST) ∧
      (MAX_CONCURRENT_INVALID_COMMANDS ≤ 0 + 1 →
        (request_process .req_error 0 [] req0).client_out =
          [request_error_msg .req_error, err_too_many] ∧
        (request_process .req_error 0 [] req0).next = pop3_state.DONE)) ∧
    (request_result.req_error = request_result.done_ok →
      (request_process .req_error 0 [] req0).cic = 0 ∧
      (request_process .req_error 0 [] req0).client_out = [] ∧
      (request_process .req_error 0 [] req0).next = pop3_state.REQUEST ∧
      (request_process .req_error 0 [] req0).queue = [] ++ [req0])) :=
  request_process_invalid_policy .req_error 0 [] req0

/-- Setting index `i` of a list changes `countP` by the predicate value of
the new element minus that of the replaced one. -/
theorem countP_set_int {α : Type} (p : α → Bool) :
    ∀ (l : List α) (i : Nat) (a b : α), l[i]? = some b →
      (((l.set i a).countP p : Int)) =
        (l.countP p : Int) + (if p a then 1 else 0) -
          (if p b then 1 else 0) := by
  intro l
  induction l with
  | nil => intro i a b h; simp at h
  | cons x xs ih =>
      intro i a b h
      cases i with
      | zero =>
          simp only [List.getElem?_cons_zero, Option.some.injEq] at h
          subst h
          simp only [List.set_cons_zero, List.countP_cons]
          cases hpa : p a <;> cases hpx : p x <;> simp [hpa, hpx]
      | succ n =>
          simp only [List.getElem?_cons_succ] at h
          have hrec := ih n a b h
          simp only [List.set_cons_succ, List.countP_cons]
          cases hpx : p x <;> simp [hpx] <;> push_cast at hrec ⊢ <;> omega

/-- Each metrics event preserves the accept-minus-teardown accounting. -/
theorem metrics_step_inv (st : metrics_state) (e : metrics_event)
    (h : metrics_inv st) : metrics_inv (metrics_step st e) := by
  unfold metrics_inv doneWithOrigin at h ⊢
  cases e with
  | accept ok =>
      cases ok <;>
        simp [metrics_step, List.countP_append] <;> push_cast <;> omega
  | connect i =>
      cases hs : st.sessions[i]? with
      | none => simpa [metrics_step, hs] using h
      | some s =>
          cases hterm : s.terminated
          · have hset := countP_set_int
              (fun r => r.terminated && r.hasOrigin) st.sessions i
              { s with hasOrigin := true } s hs
            simp [hterm] at hset
            simp [metrics_step, hs, hterm]
            omega
          · simpa [metrics_step, hs, hterm] using h
  | done i =>
      cases hs : st.sessions[i]? with
      | none => simpa [metrics_step, hs] using h
      | some s =>
          cases hterm : s.terminated
          · have hset := countP_set_int
              (fun r => r.terminated && r.hasOrigin) st.sessions i
              { s with terminated := true } s hs
            simp [hterm] at hset
            cases ho : s.hasOrigin <;>
              simp [ho] at hset <;>
              simp [metrics_step, hs, hterm, ho] <;> omega
          · simpa [metrics_step, hs, hterm] using h

/-- Folding metrics events preserves the accounting. -/
theorem metrics_fold_inv :
    ∀ (evs : List metrics_event) (st : metrics_state), metrics_inv st →
      metrics_inv (evs.foldl metrics_step st) := by
  intro evs
  induction evs with
  | nil => intro st h; exact h
  | cons e evs ih => intro st h; exact ih _ (metrics_step_inv st e h)

/-- Counterexample to C5 as stated: one successfully accepted session that
has not yet connected to the origin makes the counter 1 while zero
non-terminal sessions have an established origin connection. -/
theorem concurrent_connections_counterexample :
    (metrics_run [.accept true]).concurrent_connections = 1 ∧
    liveWithOrigin (metrics_run [.accept true]) = 0 ∧
    (metrics_run [.accept true]).concurrent_connections ≠
      (liveWithOrigin (metrics_run [.accept true]) : Int) := by
  decide

/-- Claim C5 (amended): at all times `metrics.concurrent_connections`
equals the number of `pop3_passive_accept` invocations minus the number of
sessions torn down at DONE/ERROR that had an origin descriptor; it is not
the count of live origin-established sessions, since failed accepts and
sessions dying before `connecting` are counted but never decremented. -/
theorem concurrent_connections_accounting (evs : List metrics_event) :
    (metrics_run evs).concurrent_connections =
      ((metrics_run evs).accept_calls : Int) -
        (doneWithOrigin (metrics_run evs) : Int) :=
  metrics_fold_inv evs metrics_init
    (by simp [metrics_inv, metrics_init, doneWithOrigin])

/-- Witness for C5 (amended) on a concrete full session history. -/
theorem concurrent_connections_accounting_witness :
    (metrics_run [.accept true, .connect 0, .done 0]).concurrent_connections =
      ((metrics_run [.accept true, .connect 0, .done 0]).accept_calls : Int) -
        (doneWithOrigin
          (metrics_run [.accept true, .connect 0, .done 0]) : Int) :=
  concurrent_connections_accounting [.accept true, .connect 0, .done 0]

/-- One ET handler dispatch preserves the stuck invariant after a failed
spawn. -/
theorem et_step_stuck (st : et_state) (e : et_event)
    (h : et_stuck_inv st) : et_stuck_inv (et_step st e) := by
  obtain ⟨hp, hfw, hew, hsb⟩ := h
  unfold et_stuck_inv
  cases e with
  | origin_read n mail_done k =>
      unfold et_step external_transformation_read
      rcases hp with hp | hp <;> rw [hp] <;>
        simp [finished_et, hfw, hew, hsb] <;>
        (try split_ifs) <;> simp_all
  | client_write n =>
      unfold et_step external_transformation_write
      rcases hp with hp | hp <;> rw [hp] <;>
        simp [finished_et, hfw, hew, hsb] <;>
        (try split_ifs) <;> simp_all

/-- Folding ET handler invocations preserves the stuck invariant. -/
theorem et_fold_stuck :
    ∀ (evs : List et_event) (st : et_state), et_stuck_inv st →
      et_stuck_inv (et_run st evs) := by
  intro evs
  induction evs with
  | nil => intro st h; exact h
  | cons e evs ih => intro st h; exact ih _ (et_step_stuck st e h)

/-- Claim C6 (the code contradicts it): after a failed spawn the ET state
machine never reaches REQUEST or RESPONSE again, whatever origin reads and
client writes happen, because the flags `finished_et` needs can only be set
by the child-side handlers whose descriptors do not exist. The session
hangs in EXTERNAL_TRANSFORMATION (or dies with ERROR) instead of returning
to REQUEST/RESPONSE as claimed. -/
theorem et_spawn_failure_never_returns (mail_buffered queue_nonempty : Bool)
    (evs : List et_event) :
    (et_run (et_init_after_failed_spawn mail_buffered queue_nonempty)
        evs).pstate ≠ pop3_state.REQUEST ∧
    (et_run (et_init_after_failed_spawn mail_buffered queue_nonempty)
        evs).pstate ≠ pop3_state.RESPONSE := by
  have hinit :
      et_stuck_inv (et_init_after_failed_spawn mail_buffered queue_nonempty) := by
    exact ⟨Or.inl rfl, rfl, rfl, rfl⟩
  obtain ⟨hp, -, -, -⟩ := et_fold_stuck evs _ hinit
  rcases hp with hp | hp <;> rw [hp] <;> exact ⟨by decide, by decide⟩

/-- Claim C7: the argumentless management CMD command inverts
`et_activated` and replies with the resulting state; toggling twice
restores the original configuration value. -/
theorem cmd_toggle_involutive (p : management_options) :
    (parse_config_cmd_toggle p).1.et_activated = ! p.et_activated ∧
    (parse_config_cmd_toggle
        (parse_config_cmd_toggle p).1).1.et_activated = p.et_activated ∧
    (parse_config_cmd_toggle p).2 =
      mreply.ok
        (if ! p.et_activated then
          ascii ("External transformations activated.")
        else ascii ("External transformations deactivated.")) := by
  cases hpe : p.et_activated <;> simp [parse_config_cmd_toggle, hpe]

/-- Witness for C7 at a concrete configuration. -/
theorem cmd_toggle_involutive_witness :
    (parse_config_cmd_toggle
        { et_activated := false, filter_command := none
          replacement_msg := [] }).1.et_activated =
      ! (false : Bool) ∧
    (parse_config_cmd_toggle
        (parse_config_cmd_toggle
          { et_activated := false, filter_command := none
            replacement_msg := [] }).1).1.et_activated = false ∧
    (parse_config_cmd_toggle
        { et_activated := false, filter_command := none
          replacement_msg := [] }).2 =
      mreply.ok
        (if ! (false : Bool) then
          ascii ("External transformations activated.")
        else ascii ("External transformations deactivated.")) :=
  cmd_toggle_involutive
    { et_activated := false, filter_command := none, replacement_msg := [] }

/-- Claim C8 (the code contradicts it): for `MSG hello` the copy buffer is
one byte smaller than `strcpy` writes, the argv cell rather than the owned
copy is stored in `replacement_msg`, the previous value is not released,
and the reply is `+OK Done.`. -/
theorem msg_branch_stores_argv_cell :
    (parse_config_msg msg_hello).alloc_size = 5 ∧
    (parse_config_msg msg_hello).strcpy_bytes = 6 ∧
    (parse_config_msg msg_hello).alloc_size <
      (parse_config_msg msg_hello).strcpy_bytes ∧
    (parse_config_msg msg_hello).stored = stored_ptr.argv_cell ∧
    (parse_config_msg msg_hello).stored ≠ stored_ptr.owned_copy ∧
    (parse_config_msg msg_hello).old_freed = false ∧
    (parse_config_msg msg_hello).reply = mreply.ok (ascii ("Done.")) := by
  decide

/-- Claim C9: a single-token case-insensitive QUIT is honored in every
management FSM state, because the QUIT test precedes the per-state
dispatch in `parse_commands`: it replies `+OK Goodbye.`, closes the
descriptor and returns -1. -/
theorem quit_honored_in_every_state (status : parse_status) (argc : Nat)
    (cmd0 : List Nat) (err : mgmt_err) (h1 : argc = 1)
    (h2 : strcasecmp_eq QUIT_BYTES cmd0 = true) :
    parse_commands status argc cmd0 err =
      mgmt_outcome.goodbye_closed (mreply.ok (ascii ("Goodbye."))) (-1) := by
  subst h1
  simp [parse_commands, h2]

/-- Witness for C9: lowercase quit in the HELO state. -/
theorem quit_honored_in_every_state_witness :
    (1 = 1 ∧ strcasecmp_eq QUIT_BYTES quit_lower = true) ∧
    parse_commands parse_status.ST_HELO 1 quit_lower mgmt_err.PARSE_OK =
      mgmt_outcome.goodbye_closed (mreply.ok (ascii ("Goodbye."))) (-1) :=
  ⟨⟨rfl, by decide⟩,
    quit_honored_in_every_state .ST_HELO 1 quit_lower .PARSE_OK rfl
      (by decide)⟩

/-- One pool event keeps the free-list length below `pool_size` and
`pool_size` at most `max_pool`. -/
theorem pool_step_bound (st : pool_state) (e : pool_event)
    (h1 : st.pool.length ≤ st.pool_size) (h2 : st.pool_size ≤ max_pool) :
    (pool_step st e).pool.length ≤ (pool_step st e).pool_size ∧
    (pool_step st e).pool_size ≤ max_pool := by
  cases e with
  | new =>
      cases hp : st.pool with
      | nil => simp [pool_step, pop3_new, hp]; omega
      | cons u rest =>
          simp [pool_step, pop3_new, hp]
          rw [hp] at h1
          simp at h1
          omega
  | destroy r =>
      by_cases hr : r = 1
      · by_cases hsz : st.pool_size < max_pool
        · simp [pool_step, pop3_destroy, hr, hsz]
          omega
        · simp [pool_step, pop3_destroy, hr, hsz]
          exact ⟨h1, h2⟩
      · simp [pool_step, pop3_destroy, hr]
        exact ⟨h1, h2⟩

/-- Folding pool events keeps the bound. -/
theorem pool_fold_bound :
    ∀ (evs : List pool_event) (st : pool_state),
      st.pool.length ≤ st.pool_size → st.pool_size ≤ max_pool →
      (evs.foldl pool_step st).pool.length ≤
        (evs.foldl pool_step st).pool_size ∧
      (evs.foldl pool_step st).pool_size ≤ max_pool := by
  intro evs
  induction evs with
  | nil => intro st h1 h2; exact ⟨h1, h2⟩
  | cons e evs ih =>
      intro st h1 h2
      have hstep := pool_step_bound st e h1 h2
      exact ih _ hstep.1 hstep.2

/-- Claim C10: across any sequence of `pop3_new` and `pop3_destroy` calls
the session free-list never holds more than `max_pool` (50) entries, and
`pool_size` (never decremented on reuse, incremented on every insertion,
insertion guarded by `pool_size < max_pool`) bounds the list length. -/
theorem session_pool_bounded (evs : List pool_event) :
    (pool_run evs).pool.length ≤ max_pool ∧
    (pool_run evs).pool.length ≤ (pool_run evs).pool_size := by
  have h := pool_fold_bound evs { pool := [], pool_size := 0 }
    (by simp) (by simp [max_pool])
  exact ⟨le_trans h.1 h.2, h.1⟩

/-- Witness for C10 on a concrete creation and destruction history. -/
theorem session_pool_bounded_witness :
    (pool_run [.destroy 1, .new, .destroy 1, .destroy 1]).pool.length ≤
      max_pool ∧
    (pool_run [.destroy 1, .new, .destroy 1, .destroy 1]).pool.length ≤
      (pool_run [.destroy 1, .new, .destroy 1, .destroy 1]).pool_size :=
  session_pool_bounded [.destroy 1, .new, .destroy 1, .destroy 1]

end ProxyPOP3
